import Mathlib

/-!
Shallow embedding of the realtime companion session engine of the
InteractGenxSRM repository (src/components/Onboarding.tsx, CompanionMode
component; src/services/gemini.ts; src/services/gestureService.ts).

Conventions of the embedding:
* JavaScript numbers used as clock times (AudioContext.currentTime and
  buffer durations, float seconds) are modelled as exact integers in
  milliseconds, so the MIN_BUFFER_TIME constant 0.02 s is the integer 20;
  millisecond timestamps (Date.now()) are integers as well. Every claim
  here is invariant under this change of unit.
* Mutable refs become fields of explicit state structures; each callback
  becomes a pure state-transition function.
* JavaScript promise interleaving relevant to the audio pipeline is made
  explicit by an event machine: an inbound audio message first checks the
  is-stopped flag and starts the decode (audioArrive), and the scheduling
  happens when the awaited decode resolves (decodeDone), possibly after
  other events ran in between.
* Host functions that the code calls (regex match, JSON.parse, URL parsing,
  the search model call) are oracles passed in as explicit parameters.
-/

namespace Companion

/-! ## Playback scheduler (Onboarding.tsx lines 628-647, 254-255) -/

/-- The MIN_BUFFER_TIME constant of the audio output handler (0.02 s,
that is 20 ms). -/
def MIN_BUFFER_TIME : ℤ := 20

/-- One decoded inbound audio chunk: the output-clock reading when the
handler resumes after the decode, the buffer duration (both in ms), and a
handle identifying the AudioBufferSourceNode that will play it. -/
structure Chunk where
  now : ℤ
  duration : ℤ
  handle : Nat
deriving DecidableEq, Repr

/-- State owned by the playback scheduler: the nextStartTimeRef cursor, the
sourcesRef active set (as a list of handles), and a ghost log of every
(start, duration) pair passed to source.start. -/
structure SchedState where
  nextStart : ℤ
  sources : List Nat
  scheduled : List (ℤ × ℤ)
deriving DecidableEq, Repr

/-- Start time chosen for a chunk: lines 634-637 reset the cursor to
now + MIN_BUFFER_TIME when it is in the past, else keep it. -/
def startFor (s : SchedState) (now : ℤ) : ℤ :=
  if s.nextStart < now then now + MIN_BUFFER_TIME else s.nextStart

/-- Lines 634-646: schedule one decoded chunk at the cursor, advance the
cursor by the duration, and add the source to the active set. -/
def scheduleChunk (s : SchedState) (c : Chunk) : SchedState :=
  { nextStart := startFor s c.now + c.duration
  , sources := s.sources ++ [c.handle]
  , scheduled := s.scheduled ++ [(startFor s c.now, c.duration)] }

/-- Process a sequence of decoded chunks in arrival order. -/
def runChunks (s : SchedState) (cs : List Chunk) : SchedState :=
  cs.foldl scheduleChunk s

/-- Line 646: the onended callback removes the source from the active set. -/
def sourceEnded (s : SchedState) (h : Nat) : SchedState :=
  { s with sources := s.sources.erase h }

/-! ## Player event machine (Onboarding.tsx lines 331-342, 598-647)

The audio branch of onmessage checks isResponseStoppedRef before awaiting
decodeAudioData and schedules without re-checking the flag after the await;
stopSpeaking (lines 331-342) and the interrupted branch (lines 617-626) can
run between those two points. -/

/-- Full playback-relevant state: scheduler state, the
isResponseStoppedRef flag, and the queue of decodes in flight (chunks that
passed the flag check and whose decode has not yet resolved). -/
structure PlayerState where
  sched : SchedState
  isResponseStopped : Bool
  pendingDecodes : List Chunk
deriving DecidableEq, Repr

/-- Events of the playback pipeline. audioArrive is the start of the audio
branch of onmessage (flag check, decode begins); decodeDone is the
continuation after the awaited decode resolves (scheduling); localStop is
the stopSpeaking command; remoteInterrupt is the serverContent.interrupted
branch; ended is the natural completion of a source. -/
inductive PEvent
  | audioArrive (c : Chunk)
  | decodeDone
  | localStop (now : ℤ)
  | remoteInterrupt (now : ℤ)
  | ended (h : Nat)
deriving DecidableEq, Repr

/-- One step of the playback pipeline, as the code behaves:
* audioArrive: line 630 drops the chunk when the flag is set, else the
  decode begins;
* decodeDone: lines 634-646 schedule the decoded chunk with no further
  flag check;
* localStop (lines 331-342): flag set to true, every source stopped, set
  cleared, cursor reset to the current clock time;
* remoteInterrupt (lines 617-626): flag set to FALSE, every source
  stopped, set cleared, cursor reset to the current clock time;
* ended: remove the source from the active set. -/
def pstep (s : PlayerState) (e : PEvent) : PlayerState :=
  match e with
  | .audioArrive c =>
      if s.isResponseStopped then s
      else { s with pendingDecodes := s.pendingDecodes ++ [c] }
  | .decodeDone =>
      match s.pendingDecodes with
      | [] => s
      | c :: rest =>
          { s with sched := scheduleChunk s.sched c, pendingDecodes := rest }
  | .localStop now =>
      { s with isResponseStopped := true
             , sched := { nextStart := now, sources := []
                        , scheduled := s.sched.scheduled } }
  | .remoteInterrupt now =>
      { s with isResponseStopped := false
             , sched := { nextStart := now, sources := []
                        , scheduled := s.sched.scheduled } }
  | .ended h => { s with sched := sourceEnded s.sched h }

/-- Run a trace of playback events. -/
def runPlayer (s : PlayerState) (es : List PEvent) : PlayerState :=
  es.foldl pstep s

/-! ## Transcript aggregation (Onboarding.tsx lines 362-372, 598-615) -/

/-- Speaker role of a transcript item. -/
inductive Role
  | user
  | model
deriving DecidableEq, Repr

/-- TranscriptItem of Onboarding.tsx: id (Date.now().toString(), modelled
as a number), role, accumulated text, completion flag. -/
structure TranscriptItem where
  id : Nat
  role : Role
  text : String
  isComplete : Bool
deriving DecidableEq, Repr

/-- Lines 362-372: a fragment continues the last item when the last item
exists, has the same role and is not complete (its text is appended and
its flag replaced by the fragment flag); otherwise a new item is created. -/
def updateTranscript (ts : List TranscriptItem) (newId : Nat) (role : Role)
    (text : String) (isComplete : Bool) : List TranscriptItem :=
  match ts.getLast? with
  | some last =>
      if last.role = role ∧ last.isComplete = false then
        ts.dropLast ++
          [{ last with text := last.text ++ text, isComplete := isComplete }]
      else
        ts ++ [⟨newId, role, text, isComplete⟩]
  | none => ts ++ [⟨newId, role, text, isComplete⟩]

/-- Lines 611-615: the turnComplete branch marks every item complete. -/
def turnCompleteTranscript (ts : List TranscriptItem) : List TranscriptItem :=
  ts.map fun t => { t with isComplete := true }

/-- Lines 617-626: the interrupted branch stops audio and clears the live
input text only; the transcripts list is not modified, so no item is
marked complete by an interruption. -/
def interruptedTranscript (ts : List TranscriptItem) : List TranscriptItem :=
  ts

/-! ## Tool-call router (Onboarding.tsx lines 649-704) -/

/-- Behaviour of the local handler for one function call: the handler
either produces its value (the search summary text; unused for the HUD
tool) or throws. -/
inductive ToolOutcome
  | ok (summary : String)
  | thrown
deriving DecidableEq, Repr

/-- One model-initiated function call, together with the outcome its
handler would have (the environment of the try blocks). -/
structure FunctionCall where
  id : String
  name : String
  outcome : ToolOutcome
deriving DecidableEq, Repr

/-- One entry pushed onto functionResponses. -/
structure FunctionResponse where
  id : String
  name : String
  result : String
deriving DecidableEq, Repr

/-- Lines 653-696: the body of the for loop over msg.toolCall.functionCalls.
search_web and render_hud_overlay each push exactly one response (an error
string when the handler throws, lines 667-674 and 687-694); any other name
matches no branch and pushes nothing. -/
def responseFor (fc : FunctionCall) : Option FunctionResponse :=
  if fc.name = "search_web" then
    some (match fc.outcome with
      | .ok t => ⟨fc.id, fc.name, "Summary: " ++ t⟩
      | .thrown => ⟨fc.id, fc.name, "Error performing search."⟩)
  else if fc.name = "render_hud_overlay" then
    some (match fc.outcome with
      | .ok _ => ⟨fc.id, fc.name, "HUD Rendered."⟩
      | .thrown => ⟨fc.id, fc.name, "Error rendering HUD."⟩)
  else
    none

/-- The functionResponses accumulator after the whole loop, in order. -/
def collectResponses (fcs : List FunctionCall) : List FunctionResponse :=
  fcs.filterMap responseFor

/-- Lines 698-702: one sendToolResponse call with the whole batch, and only
when the accumulator is non-empty. The result lists the batches sent. -/
def flushBatches (rs : List FunctionResponse) : List (List FunctionResponse) :=
  if rs.isEmpty then [] else [rs]

/-! ## Microphone capture gating (Onboarding.tsx lines 569-596, 266-276) -/

/-- One captured audio frame: the full channel data of the 4096-sample
ScriptProcessor buffer. -/
structure AudioFrame where
  samples : List Int
deriving DecidableEq, Repr

/-- One invocation of scriptProcessor.onaudioprocess: the values of
isMicOnRef and isSocketOpenRef when the callback runs, the value of
isSocketOpenRef when the session promise resolves for the send, and the
captured frame. -/
structure CaptureTick where
  micOn : Bool
  socketOpen : Bool
  socketOpenAtSend : Bool
  frame : AudioFrame
deriving DecidableEq, Repr

/-- Lines 571-586: the callback returns without sending unless both
isMicOnRef and isSocketOpenRef are set; otherwise the whole frame is
encoded (createPcmBlob over the entire channel buffer) and sent once the
session promise resolves, where isSocketOpenRef is checked again. -/
def forwardFrame (t : CaptureTick) : Option AudioFrame :=
  if !t.micOn || !t.socketOpen then none
  else if t.socketOpenAtSend then some t.frame
  else none

/-- The chunks that reach the transport for a sequence of capture ticks. -/
def forwardedChunks (ticks : List CaptureTick) : List AudioFrame :=
  ticks.filterMap forwardFrame

/-! ## Gesture handling (Onboarding.tsx lines 401-432, 754-770, 238;
gestureService.ts lines 81-101) -/

/-- State read and written by handleGesture: the single shared
gestureCooldownRef timestamp (ms), whether transcriptRef.current is
non-null, whether holoData is non-null, whether suggestedSites is
non-empty, and a ghost log of the actions that fired with their times. -/
structure GestureState where
  cooldown : Int
  hasTranscriptEl : Bool
  holo : Bool
  hasSuggestions : Bool
  fired : List (String × Int)
deriving DecidableEq, Repr

/-- Lines 401-432: handleGesture. A single now - cooldown < 500 test gates
every gesture; each firing branch updates the one shared cooldown ref
(now for the scroll actions, now + 500 for Thumb_Down, now + 2000 for
Closed_Fist). -/
def handleGesture (s : GestureState) (now : Int) (g : String) : GestureState :=
  if now - s.cooldown < 500 then s
  else if g = "Pointing_Up" then
    if s.hasTranscriptEl then
      { s with fired := s.fired ++ [("Scroll Up", now)], cooldown := now }
    else s
  else if g = "Victory" then
    if s.hasTranscriptEl then
      { s with fired := s.fired ++ [("Scroll Down", now)], cooldown := now }
    else s
  else if g = "Thumb_Down" then
    if s.holo then
      { s with holo := false
             , fired := s.fired ++ [("Dismissed", now)]
             , cooldown := now + 500 }
    else if s.hasSuggestions then
      { s with hasSuggestions := false
             , fired := s.fired ++ [("Closed Suggestions", now)]
             , cooldown := now + 500 }
    else s
  else if g = "Closed_Fist" then
    { s with fired := s.fired ++ [("Scan Triggered", now)]
           , cooldown := now + 2000 }
  else s

/-- gestureService.ts lines 81-101: detectGesture. ready bundles the
guards of lines 82-83 (recognizer present, video readyState at least 2,
non-zero dimensions); classify is the recognizeForVideo call, which may
throw (the catch of lines 97-99 swallows it and falls through to null).
lastTimestamp is updated before the classifier runs, so it advances even
when the classifier throws. Returns the detected label and the new
lastTimestamp. -/
def detectGesture (ready : Bool) (nowInMs lastTs : Int)
    (classify : Except Unit (List (List String))) : Option String × Int :=
  if !ready then (none, lastTs)
  else if lastTs < nowInMs then
    match classify with
    | .error _ => (none, nowInMs)
    | .ok gs =>
        (match gs.head? with
         | some (c :: _) => some c
         | _ => none, nowInMs)
  else (none, lastTs)

/-- Lines 754-770: one tick of the gesture polling interval. The tick runs
the handler only when the video is on and no prior sample is still being
processed, and a null detection fires nothing (the catch around
detectGesture also leads here with no action). -/
def gestureLoopStep (s : GestureState) (videoOk busy : Bool) (now : Int)
    (det : Option String) : GestureState :=
  if videoOk && !busy then
    match det with
    | some g => handleGesture s now g
    | none => s
  else s

/-! ## Session lifecycle (Onboarding.tsx lines 434-461, 463-477, 706-719,
773-777) -/

/-- Lifecycle-relevant state of the CompanionMode component. -/
structure SessionState where
  isSocketOpen : Bool
  isSessionActive : Bool
  isMicOn : Bool
  isVideoOn : Bool
  errorMsg : Option String
  initDone : Bool
  reconnectDelayMs : Option Nat
deriving DecidableEq, Repr

/-- The flag effects of cleanupSession (lines 434-461) on this
projection: socket marked closed, session inactive, initializedRef reset.
The mic and camera flags are not touched. -/
def cleanupFlags (s : SessionState) : SessionState :=
  { s with isSocketOpen := false, isSessionActive := false, initDone := false }

/-- Lines 711-718: the onerror callback. While the socket is open it sets
the reconnecting error message, tears the session down and schedules
connectToGemini after a fixed 2000 ms delay; otherwise it does nothing. -/
def onSessionError (s : SessionState) : SessionState :=
  if s.isSocketOpen then
    { cleanupFlags s with
        errorMsg := some "Network error. Reconnecting..."
      , reconnectDelayMs := some 2000 }
  else s

/-- Lines 706-710: the onclose callback marks the socket closed and the
session inactive, and schedules nothing. -/
def onSessionClose (s : SessionState) : SessionState :=
  { s with isSocketOpen := false, isSessionActive := false }

/-- Lines 463-468: the entry of connectToGemini. A second concurrent call
is ignored via initializedRef; otherwise the error is cleared and the
session marked not yet active while connection establishment begins. The
mic and camera flags are read, never written. -/
def connectBegin (s : SessionState) : SessionState :=
  if s.initDone then s
  else
    { s with initDone := true, errorMsg := none, isSessionActive := false
           , reconnectDelayMs := none }

/-- Lines 773-777: the catch block of connectToGemini (device, permission
or setup failure during initial connection): the error is reported and
initializedRef reset, and no retry is scheduled. -/
def connectFail (s : SessionState) (msg : String) : SessionState :=
  { s with errorMsg := some msg, isSessionActive := false, initDone := false }

/-! ## Deactivation (Onboarding.tsx lines 434-461) -/

/-- Teardown steps of cleanupSession, in the order its statements can
perform them. There is no flush step for the playback scheduler. -/
inductive TeardownStep
  | cancelLoops
  | dropTransport
  | stopCapture
  | closeAudioContexts
deriving DecidableEq, Repr

/-- Resources held by the session, plus the playback-scheduler fields that
cleanupSession leaves untouched. -/
structure ResourceState where
  frameLoop : Bool
  gestureLoop : Bool
  animLoop : Bool
  isSocketOpen : Bool
  hasSession : Bool
  hasStream : Bool
  hasInputCtx : Bool
  hasOutputCtx : Bool
  isSessionActive : Bool
  initDone : Bool
  sources : List Nat
  nextStart : ℤ
deriving DecidableEq, Repr

/-- Lines 434-461: cleanupSession. Clears the three loops, marks the
socket closed, drops the session reference (without calling close), stops
the capture tracks, closes both audio contexts, marks the session inactive
and resets initializedRef. sourcesRef and nextStartTimeRef are never
touched. Returns the new state and the ordered list of teardown steps the
guarded statements performed. -/
def cleanupSession (s : ResourceState) : ResourceState × List TeardownStep :=
  ({ s with frameLoop := false, gestureLoop := false, animLoop := false
          , isSocketOpen := false, hasSession := false, hasStream := false
          , hasInputCtx := false, hasOutputCtx := false
          , isSessionActive := false, initDone := false },
   [TeardownStep.cancelLoops] ++
     (if s.hasSession then [TeardownStep.dropTransport] else []) ++
     (if s.hasStream then [TeardownStep.stopCapture] else []) ++
     (if s.hasInputCtx || s.hasOutputCtx then [TeardownStep.closeAudioContexts]
      else []))

/-! ## Web search (src/services/gemini.ts lines 4-107, performWebSearch) -/

/-- A search result entry (types.ts SearchResult). -/
structure SearchResult where
  title : String
  url : String
  siteName : Option String
  snippet : Option String
deriving DecidableEq, Repr

/-- chunk.web of a grounding chunk (title and uri may be absent). -/
structure WebInfo where
  title : Option String
  uri : Option String
deriving DecidableEq, Repr

/-- One groundingChunks entry: web may be absent. -/
structure GroundingChunk where
  web : Option WebInfo
deriving DecidableEq, Repr

/-- The model reply: response.text (may be absent) and the grounding
chunks of the first candidate (empty when absent). -/
structure GenResponse where
  text : Option String
  groundingChunks : List GroundingChunk
deriving DecidableEq, Repr

/-- The object produced by JSON.parse of the extracted block: aiOverview
and organicResults may be absent (organicResults is used only when it is
an array); widget is carried through opaquely as its serialized form. -/
structure ParsedSearch where
  aiOverview : Option String
  widget : Option String
  organicResults : Option (List SearchResult)
deriving DecidableEq, Repr

/-- The value performWebSearch resolves with. -/
structure SearchOutput where
  text : String
  sources : List SearchResult
  widget : Option String
deriving DecidableEq, Repr

/-- Host functions the code calls, as oracles: the regex match for a
json code block (line 68), JSON.parse of the block (line 71, none when it
throws), the replace-and-trim fallback (line 83), and URL hostname
extraction (line 94, none when the URL constructor throws). -/
structure HostEnv where
  matchJsonBlock : String → Option String
  parseJson : String → Option ParsedSearch
  stripJsonBlock : String → String
  hostname : String → Option String

/-- Environment of one performWebSearch call: the API key and the outcome
of the generateContent call (error when it rejects). -/
structure SearchEnv where
  apiKey : String
  genOutcome : Except Unit GenResponse

/-- Lines 87-100: map grounding chunks to sources. The URL construction
for the siteName can throw, which propagates to the outer catch. -/
def groundingSources (h : HostEnv) : List GroundingChunk →
    Except Unit (List SearchResult)
  | [] => .ok []
  | c :: rest =>
      match c.web with
      | none => groundingSources h rest
      | some w =>
          match h.hostname (w.uri.getD "http://web") with
          | none => .error ()
          | some host =>
              (groundingSources h rest).map fun tail =>
                ⟨w.title.getD "Web Result", w.uri.getD "#", some host,
                 some "Source found via Google Search grounding."⟩ :: tail

/-- Lines 5-103: the body of the try block of performWebSearch. A missing
API key returns the fixed text with no sources (lines 7-10); then the
model is called; a json block that parses yields the aiOverview (or the
fixed fallback), the organicResults array if present, and the widget;
a json block that fails to parse falls back to the stripped raw text with
no sources (lines 80-84); no json block takes the grounding fallback with
the raw text (lines 85-101). -/
def searchBody (h : HostEnv) (env : SearchEnv) : Except Unit SearchOutput :=
  if env.apiKey = "" then
    .ok ⟨"I cannot search without an API key.", [], none⟩
  else
    match env.genOutcome with
    | .error e => .error e
    | .ok resp =>
        let rawText := resp.text.getD ""
        match h.matchJsonBlock rawText with
        | some block =>
            match h.parseJson block with
            | some p =>
                .ok ⟨p.aiOverview.getD "Here is what I found.",
                     p.organicResults.getD [], p.widget⟩
            | none => .ok ⟨h.stripJsonBlock rawText, [], none⟩
        | none =>
            match groundingSources h resp.groundingChunks with
            | .error e => .error e
            | .ok srcs => .ok ⟨rawText, srcs, none⟩

/-- Lines 4-107: performWebSearch. The whole body sits in a try/catch
whose catch resolves with the fixed error text and no sources (lines
104-107), so the function always resolves and never rejects. The query
only feeds the prompt, so it does not influence the control flow. -/
def performWebSearch (h : HostEnv) (env : SearchEnv) (_query : String) :
    SearchOutput :=
  match searchBody h env with
  | .ok r => r
  | .error _ => ⟨"Sorry, I encountered an error while searching.", [], none⟩

/-! ## Scheduler lemmas -/

/-- The chosen start time never moves the cursor backwards. -/
theorem startFor_ge (s : SchedState) (now : ℤ) : s.nextStart ≤ startFor s now := by
  rw [startFor]
  split
  · rename_i hlt
    have hpos : (0 : ℤ) < MIN_BUFFER_TIME := by decide
    linarith
  · exact le_rfl

/-- When no chunk finds the cursor in the past, the cursor advances by
exactly the sum of the durations. -/
theorem runChunks_nextStart (cs : List Chunk) (s : SchedState)
    (hgap : ∀ i : Fin cs.length,
      (cs.get i).now ≤ (runChunks s (cs.take i.val)).nextStart) :
    (runChunks s cs).nextStart = s.nextStart + (cs.map Chunk.duration).sum := by
  induction cs generalizing s with
  | nil => simp [runChunks]
  | cons c rest ih =>
    have h0 : c.now ≤ s.nextStart := by
      have h := hgap ⟨0, by simp⟩
      simpa [runChunks] using h
    have hstart : startFor s c.now = s.nextStart := by
      rw [startFor, if_neg (not_lt.mpr h0)]
    have hrest : ∀ i : Fin rest.length,
        (rest.get i).now
          ≤ (runChunks (scheduleChunk s c) (rest.take i.val)).nextStart := by
      intro i
      have h := hgap ⟨i.val + 1, Nat.succ_lt_succ i.isLt⟩
      simpa [runChunks, List.take_succ_cons] using h
    have hsum := ih (scheduleChunk s c) hrest
    simp only [runChunks, List.foldl_cons] at hsum ⊢
    rw [hsum]
    simp only [scheduleChunk, hstart, List.map_cons, List.sum_cons]
    ring

/-- Every interval already scheduled ends no later than the cursor, and the
scheduled intervals stay in non-overlapping chronological order. -/
theorem runChunks_pairwise (cs : List Chunk) (s : SchedState)
    (hdur : ∀ ch ∈ cs, 0 ≤ ch.duration)
    (hbound : ∀ p ∈ s.scheduled, p.1 + p.2 ≤ s.nextStart)
    (hpw : s.scheduled.Pairwise fun a b => a.1 + a.2 ≤ b.1) :
    (runChunks s cs).scheduled.Pairwise fun a b => a.1 + a.2 ≤ b.1 := by
  induction cs generalizing s with
  | nil => simpa [runChunks] using hpw
  | cons c rest ih =>
    simp only [runChunks, List.foldl_cons]
    have hd : 0 ≤ c.duration := hdur c (List.mem_cons_self _ _)
    have hge := startFor_ge s c.now
    apply ih
    · intro ch hch
      exact hdur ch (List.mem_cons_of_mem _ hch)
    · intro p hp
      simp only [scheduleChunk, List.mem_append, List.mem_singleton] at hp
      rcases hp with hp | hp
      · have h1 := hbound p hp
        show p.1 + p.2 ≤ startFor s c.now + c.duration
        linarith
      · subst hp
        show startFor s c.now + c.duration ≤ startFor s c.now + c.duration
        exact le_rfl
    · show (s.scheduled ++ [(startFor s c.now, c.duration)]).Pairwise _
      rw [List.pairwise_append]
      refine ⟨hpw, List.pairwise_singleton _ _, ?_⟩
      intro a ha b hb
      rw [List.mem_singleton] at hb
      subst hb
      have h1 := hbound a ha
      show a.1 + a.2 ≤ startFor s c.now
      linarith

/-- C1: with no interruption and no local stop, each decoded chunk is
scheduled exactly at the nextStart cursor (after the reset to
now + MIN_BUFFER_TIME when the cursor is in the past), the cursor advances
by the chunk duration, the source joins the active set and leaves it on
natural completion; when no later chunk finds the cursor in the past,
nextStart after the whole sequence equals the first chunk start time plus
the sum of all durations, and no two scheduled sources overlap. -/
theorem C1_gapless_scheduling (s0 : SchedState) (c : Chunk) (rest : List Chunk)
    (hsched : s0.scheduled = [])
    (hdur : ∀ ch ∈ c :: rest, 0 ≤ ch.duration)
    (hgap : ∀ i : Fin rest.length,
      (rest.get i).now
        ≤ (runChunks (scheduleChunk s0 c) (rest.take i.val)).nextStart) :
    (runChunks s0 (c :: rest)).nextStart
        = startFor s0 c.now + ((c :: rest).map Chunk.duration).sum
    ∧ (runChunks s0 (c :: rest)).scheduled.Pairwise
        (fun a b => a.1 + a.2 ≤ b.1)
    ∧ (s0.nextStart < c.now → startFor s0 c.now = c.now + MIN_BUFFER_TIME)
    ∧ (scheduleChunk s0 c).sources = s0.sources ++ [c.handle]
    ∧ (c.handle ∉ s0.sources →
        (sourceEnded (scheduleChunk s0 c) c.handle).sources = s0.sources) := by
  refine ⟨?_, ?_, ?_, ?_, ?_⟩
  · have hsum := runChunks_nextStart rest (scheduleChunk s0 c) hgap
    simp only [runChunks, List.foldl_cons] at hsum ⊢
    rw [hsum]
    simp only [scheduleChunk, List.map_cons, List.sum_cons]
    ring
  · exact runChunks_pairwise (c :: rest) s0 hdur
      (by rw [hsched]; intro p hp; cases hp) (by rw [hsched]; exact List.Pairwise.nil)
  · intro hlt
    rw [startFor, if_pos hlt]
  · rfl
  · intro hnotmem
    show ((s0.sources ++ [c.handle]).erase c.handle) = s0.sources
    rw [List.erase_append_right _ hnotmem, List.erase_cons_head, List.append_nil]

/-- Witness for C1 at a concrete two-chunk run from a fresh scheduler. -/
theorem C1_gapless_scheduling_witness :
    (runChunks (⟨0, [], []⟩ : SchedState)
        ((⟨1, 2, 0⟩ : Chunk) :: [(⟨1, 3, 1⟩ : Chunk)])).nextStart
        = startFor (⟨0, [], []⟩ : SchedState) (⟨1, 2, 0⟩ : Chunk).now
            + (((⟨1, 2, 0⟩ : Chunk) :: [(⟨1, 3, 1⟩ : Chunk)]).map
                Chunk.duration).sum
    ∧ (runChunks (⟨0, [], []⟩ : SchedState)
        ((⟨1, 2, 0⟩ : Chunk) :: [(⟨1, 3, 1⟩ : Chunk)])).scheduled.Pairwise
        (fun a b => a.1 + a.2 ≤ b.1)
    ∧ ((⟨0, [], []⟩ : SchedState).nextStart < (⟨1, 2, 0⟩ : Chunk).now →
        startFor (⟨0, [], []⟩ : SchedState) (⟨1, 2, 0⟩ : Chunk).now
          = (⟨1, 2, 0⟩ : Chunk).now + MIN_BUFFER_TIME)
    ∧ (scheduleChunk (⟨0, [], []⟩ : SchedState) (⟨1, 2, 0⟩ : Chunk)).sources
        = (⟨0, [], []⟩ : SchedState).sources ++ [(⟨1, 2, 0⟩ : Chunk).handle]
    ∧ ((⟨1, 2, 0⟩ : Chunk).handle ∉ (⟨0, [], []⟩ : SchedState).sources →
        (sourceEnded (scheduleChunk (⟨0, [], []⟩ : SchedState)
            (⟨1, 2, 0⟩ : Chunk)) (⟨1, 2, 0⟩ : Chunk).handle).sources
          = (⟨0, [], []⟩ : SchedState).sources) :=
  C1_gapless_scheduling ⟨0, [], []⟩ ⟨1, 2, 0⟩ [⟨1, 3, 1⟩] rfl (by decide)
    (by decide)

/-- C2 counterexample: the chunk with handle 0 is in flight (its decode
began before the local stop); after the stop the active set is empty, yet
the decode completion still schedules the chunk, so a chunk of the
interrupted turn enters the active set after the interruption. -/
theorem C2_counterexample :
    (runPlayer (⟨⟨0, [], []⟩, false, []⟩ : PlayerState)
        [.audioArrive ⟨5, 10, 0⟩, .localStop 2]).sched.sources = []
    ∧ (runPlayer (⟨⟨0, [], []⟩, false, []⟩ : PlayerState)
        [.audioArrive ⟨5, 10, 0⟩, .localStop 2, .decodeDone]).sched.sources
        = [0] := by
  decide

/-- C2 amended: both interruption signals stop every active source, clear
the set and reset nextStart to the current clock time; only the local
stop sets the is-stopped flag (the remote interrupted handler resets it to
false); the flag is checked before a decode begins, not again before
scheduling: a chunk arriving after a local stop is discarded, but a chunk
whose decode was already in flight is still scheduled afterwards. -/
theorem C2_interruption_flush (s : PlayerState) (now : ℤ) (c d : Chunk)
    (rest : List Chunk)
    (hstop : s.isResponseStopped = true)
    (hpend : s.pendingDecodes = d :: rest) :
    (pstep s (.localStop now)).sched.sources = []
    ∧ (pstep s (.localStop now)).sched.nextStart = now
    ∧ (pstep s (.localStop now)).isResponseStopped = true
    ∧ (pstep s (.remoteInterrupt now)).sched.sources = []
    ∧ (pstep s (.remoteInterrupt now)).sched.nextStart = now
    ∧ (pstep s (.remoteInterrupt now)).isResponseStopped = false
    ∧ pstep s (.audioArrive c) = s
    ∧ (pstep s .decodeDone).sched.scheduled
        = s.sched.scheduled ++ [(startFor s.sched d.now, d.duration)] := by
  refine ⟨rfl, rfl, rfl, rfl, rfl, rfl, ?_, ?_⟩
  · simp [pstep, hstop]
  · simp [pstep, hpend, scheduleChunk]

/-- Witness for C2 at a concrete stopped state with one decode in flight. -/
theorem C2_interruption_flush_witness :
    (pstep (⟨⟨7, [3], []⟩, true, [⟨5, 10, 0⟩]⟩ : PlayerState)
        (.localStop 2)).sched.sources = []
    ∧ (pstep (⟨⟨7, [3], []⟩, true, [⟨5, 10, 0⟩]⟩ : PlayerState)
        (.localStop 2)).sched.nextStart = 2
    ∧ (pstep (⟨⟨7, [3], []⟩, true, [⟨5, 10, 0⟩]⟩ : PlayerState)
        (.localStop 2)).isResponseStopped = true
    ∧ (pstep (⟨⟨7, [3], []⟩, true, [⟨5, 10, 0⟩]⟩ : PlayerState)
        (.remoteInterrupt 2)).sched.sources = []
    ∧ (pstep (⟨⟨7, [3], []⟩, true, [⟨5, 10, 0⟩]⟩ : PlayerState)
        (.remoteInterrupt 2)).sched.nextStart = 2
    ∧ (pstep (⟨⟨7, [3], []⟩, true, [⟨5, 10, 0⟩]⟩ : PlayerState)
        (.remoteInterrupt 2)).isResponseStopped = false
    ∧ pstep (⟨⟨7, [3], []⟩, true, [⟨5, 10, 0⟩]⟩ : PlayerState)
        (.audioArrive ⟨6, 4, 1⟩)
        = (⟨⟨7, [3], []⟩, true, [⟨5, 10, 0⟩]⟩ : PlayerState)
    ∧ (pstep (⟨⟨7, [3], []⟩, true, [⟨5, 10, 0⟩]⟩ : PlayerState)
        .decodeDone).sched.scheduled
        = (⟨⟨7, [3], []⟩, true, [⟨5, 10, 0⟩]⟩ : PlayerState).sched.scheduled
            ++ [(startFor (⟨7, [3], []⟩ : SchedState) (5 : ℤ), (10 : ℤ))] :=
  C2_interruption_flush ⟨⟨7, [3], []⟩, true, [⟨5, 10, 0⟩]⟩ 2 ⟨6, 4, 1⟩
    ⟨5, 10, 0⟩ [] rfl rfl

/-! ## Tool-call router lemmas -/

/-- A pushed response carries the id and name of its request. -/
theorem responseFor_id_name (fc : FunctionCall) (r : FunctionResponse)
    (h : responseFor fc = some r) : r.id = fc.id ∧ r.name = fc.name := by
  rw [responseFor] at h
  by_cases h1 : fc.name = "search_web"
  · rw [if_pos h1] at h
    cases ho : fc.outcome <;> rw [ho] at h <;> cases h <;> exact ⟨rfl, rfl⟩
  · rw [if_neg h1] at h
    by_cases h2 : fc.name = "render_hud_overlay"
    · rw [if_pos h2] at h
      cases ho : fc.outcome <;> rw [ho] at h <;> cases h <;> exact ⟨rfl, rfl⟩
    · rw [if_neg h2] at h
      cases h

/-- Unfolding: a request matching no branch contributes no response. -/
theorem collectResponses_cons_none (g : FunctionCall) (rest : List FunctionCall)
    (h : responseFor g = none) :
    collectResponses (g :: rest) = collectResponses rest := by
  simp [collectResponses, List.filterMap_cons, h]

/-- Unfolding: a request matching a branch contributes its one response. -/
theorem collectResponses_cons_some (g : FunctionCall) (rest : List FunctionCall)
    (r : FunctionResponse) (h : responseFor g = some r) :
    collectResponses (g :: rest) = r :: collectResponses rest := by
  simp [collectResponses, List.filterMap_cons, h]

/-- Every collected response comes from some request in the list. -/
theorem mem_collect_id (fcs : List FunctionCall) (r : FunctionResponse)
    (h : r ∈ collectResponses fcs) : r.id ∈ fcs.map FunctionCall.id := by
  rw [collectResponses, List.mem_filterMap] at h
  obtain ⟨fc, hfc, hr⟩ := h
  rw [(responseFor_id_name fc r hr).1]
  exact List.mem_map_of_mem _ hfc

/-- With pairwise-distinct request ids, the responses with the id of a
given request are exactly what its own loop branch pushed. -/
theorem collect_filter_eq (fcs : List FunctionCall) (fc : FunctionCall)
    (hmem : fc ∈ fcs) (hids : (fcs.map FunctionCall.id).Nodup) :
    (collectResponses fcs).filter (fun r => r.id = fc.id)
      = (responseFor fc).toList := by
  induction fcs with
  | nil => cases hmem
  | cons g rest ih =>
    rw [List.map_cons, List.nodup_cons] at hids
    have hrestnil : ∀ gc : FunctionCall, gc.id ∉ rest.map FunctionCall.id →
        (collectResponses rest).filter (fun r => r.id = gc.id) = [] := by
      intro gc hgc
      rw [List.filter_eq_nil_iff]
      intro r hr
      simp only [decide_eq_true_eq]
      intro hrid
      exact hgc (hrid ▸ mem_collect_id rest r hr)
    rcases List.mem_cons.mp hmem with rfl | hmem2
    · cases hg : responseFor fc with
      | none =>
          rw [collectResponses_cons_none _ _ hg]
          exact hrestnil fc hids.1
      | some resp =>
          have hid := (responseFor_id_name fc resp hg).1
          rw [collectResponses_cons_some _ _ _ hg]
          simp [List.filter_cons, hid, hrestnil fc hids.1]
    · have hne : g.id ≠ fc.id := by
        intro he
        exact hids.1 (he ▸ List.mem_map_of_mem _ hmem2)
      cases hg : responseFor g with
      | none =>
          rw [collectResponses_cons_none _ _ hg]
          exact ih hmem2 hids.2
      | some resp =>
          have hrne : resp.id ≠ fc.id := by
            rw [(responseFor_id_name g resp hg).1]
            exact hne
          rw [collectResponses_cons_some _ _ _ hg]
          simp only [List.filter_cons, hrne, decide_eq_true_eq, if_false]
          exact ih hmem2 hids.2

/-- C3 counterexample: a single tool call whose name matches no branch of
the loop (here get_weather) produces no response at all, and nothing is
flushed, so the request with id 7 is never answered and no structured
unsupported-tool error exists. -/
theorem C3_counterexample :
    collectResponses [⟨"7", "get_weather", .ok "x"⟩] = []
    ∧ flushBatches (collectResponses [⟨"7", "get_weather", .ok "x"⟩]) = [] := by
  constructor
  · rfl
  · rfl

/-- C3 amended: a request whose name is search_web or render_hud_overlay
is answered exactly once, with the id and name of the request, even when
its handler throws (the result is then the fixed error string); all
responses of one message are flushed together as a single batch; a request
with any other name receives no response. -/
theorem C3_tool_round_trip (fcs : List FunctionCall) (fc : FunctionCall)
    (hmem : fc ∈ fcs)
    (hknown : fc.name = "search_web" ∨ fc.name = "render_hud_overlay")
    (hids : (fcs.map FunctionCall.id).Nodup) :
    ((collectResponses fcs).filter (fun r => r.id = fc.id)).length = 1
    ∧ (∀ r ∈ collectResponses fcs, r.id = fc.id → r.name = fc.name)
    ∧ (collectResponses fcs ≠ [] →
        flushBatches (collectResponses fcs) = [collectResponses fcs])
    ∧ (fc.outcome = .thrown → ∀ r ∈ collectResponses fcs, r.id = fc.id →
        r.result = "Error performing search."
          ∨ r.result = "Error rendering HUD.") := by
  have hfilter := collect_filter_eq fcs fc hmem hids
  have hsome : ∃ r, responseFor fc = some r := by
    rcases hknown with hk | hk <;> cases ho : fc.outcome <;>
      simp [responseFor, hk, ho]
  obtain ⟨resp, hresp⟩ := hsome
  refine ⟨?_, ?_, ?_, ?_⟩
  · rw [hfilter, hresp]
    rfl
  · intro r hr hrid
    have hrmem : r ∈ (collectResponses fcs).filter (fun q => q.id = fc.id) := by
      rw [List.mem_filter]
      exact ⟨hr, by simp [hrid]⟩
    rw [hfilter, hresp] at hrmem
    simp only [Option.toList_some, List.mem_singleton] at hrmem
    subst hrmem
    exact (responseFor_id_name fc r hresp).2
  · intro hne
    rw [flushBatches, if_neg]
    simpa using hne
  · intro hthrown r hr hrid
    have hrmem : r ∈ (collectResponses fcs).filter (fun q => q.id = fc.id) := by
      rw [List.mem_filter]
      exact ⟨hr, by simp [hrid]⟩
    rw [hfilter, hresp] at hrmem
    simp only [Option.toList_some, List.mem_singleton] at hrmem
    subst hrmem
    rcases hknown with hk | hk
    · left
      rw [responseFor, if_pos hk, hthrown] at hresp
      cases hresp
      rfl
    · right
      have hk2 : fc.name ≠ "search_web" := by
        rw [hk]
        decide
      rw [responseFor, if_neg hk2, if_pos hk, hthrown] at hresp
      cases hresp
      rfl

/-- Witness for C3: one failing search call and one HUD call. -/
theorem C3_tool_round_trip_witness :
    ((collectResponses [⟨"a", "search_web", .thrown⟩,
        ⟨"b", "render_hud_overlay", .ok ""⟩]).filter
        (fun r => r.id = (⟨"a", "search_web", .thrown⟩ : FunctionCall).id)).length
        = 1
    ∧ (∀ r ∈ collectResponses [⟨"a", "search_web", .thrown⟩,
          ⟨"b", "render_hud_overlay", .ok ""⟩],
        r.id = (⟨"a", "search_web", .thrown⟩ : FunctionCall).id →
        r.name = (⟨"a", "search_web", .thrown⟩ : FunctionCall).name)
    ∧ (collectResponses [⟨"a", "search_web", .thrown⟩,
          ⟨"b", "render_hud_overlay", .ok ""⟩] ≠ [] →
        flushBatches (collectResponses [⟨"a", "search_web", .thrown⟩,
            ⟨"b", "render_hud_overlay", .ok ""⟩])
          = [collectResponses [⟨"a", "search_web", .thrown⟩,
              ⟨"b", "render_hud_overlay", .ok ""⟩]])
    ∧ ((⟨"a", "search_web", .thrown⟩ : FunctionCall).outcome = .thrown →
        ∀ r ∈ collectResponses [⟨"a", "search_web", .thrown⟩,
            ⟨"b", "render_hud_overlay", .ok ""⟩],
          r.id = (⟨"a", "search_web", .thrown⟩ : FunctionCall).id →
          r.result = "Error performing search."
            ∨ r.result = "Error rendering HUD.") :=
  C3_tool_round_trip
    [⟨"a", "search_web", .thrown⟩, ⟨"b", "render_hud_overlay", .ok ""⟩]
    ⟨"a", "search_web", .thrown⟩ (by simp) (Or.inl rfl) (by simp)

/-- C4: a fragment is merged into the last item exactly when a last item
exists with the same role and not yet complete (the list keeps its
length), and otherwise a new item is appended; turn-complete marks every
item complete; the fragment sequence Hel, lo for the model role followed
by turn-complete yields exactly one complete Hello item; and the
interrupted branch leaves the transcript list untouched, marking nothing
complete. -/
theorem C4_transcript_aggregation (ts : List TranscriptItem) (nid : Nat)
    (role : Role) (txt : String) (b : Bool) :
    ((updateTranscript ts nid role txt b).length = ts.length
      ↔ ∃ last, ts.getLast? = some last ∧ last.role = role
          ∧ last.isComplete = false)
    ∧ (∀ t ∈ turnCompleteTranscript ts, t.isComplete = true)
    ∧ turnCompleteTranscript
        (updateTranscript (updateTranscript [] 1 .model "Hel" false)
          2 .model "lo" false)
        = [⟨1, .model, "Hello", true⟩]
    ∧ interruptedTranscript ts = ts := by
  refine ⟨?_, ?_, by decide, rfl⟩
  · cases hlast : ts.getLast? with
    | none =>
        have hnil : ts = [] := by
          cases ts with
          | nil => rfl
          | cons a l => simp [List.getLast?_concat] at hlast
        subst hnil
        simp [updateTranscript]
    | some last =>
        have hne : ts ≠ [] := by
          intro he
          rw [he] at hlast
          cases hlast
        by_cases hc : last.role = role ∧ last.isComplete = false
        · rw [updateTranscript, hlast]
          dsimp only
          rw [if_pos hc]
          apply iff_of_true
          · rw [List.length_append, List.length_dropLast, List.length_singleton]
            have : 0 < ts.length := List.length_pos.mpr hne
            omega
          · exact ⟨last, rfl, hc.1, hc.2⟩
        · rw [updateTranscript, hlast]
          dsimp only
          rw [if_neg hc]
          apply iff_of_false
          · rw [List.length_append, List.length_singleton]
            omega
          · rintro ⟨last2, hl2, hrole, hcomp⟩
            cases hl2
            exact hc ⟨hrole, hcomp⟩
  · intro t ht
    rw [turnCompleteTranscript, List.mem_map] at ht
    obtain ⟨t0, _, rfl⟩ := ht
    rfl

/-- Witness for C4 on a concrete transcript with one open user item. -/
theorem C4_transcript_aggregation_witness :
    ((updateTranscript [⟨0, .user, "hi", false⟩] 3 .user "!" false).length
        = [(⟨0, .user, "hi", false⟩ : TranscriptItem)].length
      ↔ ∃ last, [(⟨0, .user, "hi", false⟩ : TranscriptItem)].getLast?
            = some last ∧ last.role = .user ∧ last.isComplete = false)
    ∧ (∀ t ∈ turnCompleteTranscript [(⟨0, .user, "hi", false⟩ : TranscriptItem)],
        t.isComplete = true)
    ∧ turnCompleteTranscript
        (updateTranscript (updateTranscript [] 1 .model "Hel" false)
          2 .model "lo" false)
        = [⟨1, .model, "Hello", true⟩]
    ∧ interruptedTranscript [(⟨0, .user, "hi", false⟩ : TranscriptItem)]
        = [(⟨0, .user, "hi", false⟩ : TranscriptItem)] :=
  C4_transcript_aggregation [⟨0, .user, "hi", false⟩] 3 .user "!" false

/-- C5: while the socket stays open, a captured frame is forwarded exactly
when micEnabled is true at its callback; every forwarded chunk is the
whole frame of a mic-on tick (never a partial frame); and once micEnabled
is false for all later ticks, no chunk from any of them is forwarded. -/
theorem C5_mic_gating (ticks pre post : List CaptureTick)
    (hsock : ∀ t ∈ ticks, t.socketOpen = true ∧ t.socketOpenAtSend = true)
    (hmuted : ∀ t ∈ post, t.micOn = false) :
    (∀ t ∈ ticks, (forwardFrame t = some t.frame ↔ t.micOn = true)
      ∧ (forwardFrame t = none ↔ t.micOn = false))
    ∧ (∀ f ∈ forwardedChunks ticks, ∃ t, t ∈ ticks ∧ t.micOn = true
        ∧ f = t.frame)
    ∧ forwardedChunks (pre ++ post) = forwardedChunks pre := by
  refine ⟨?_, ?_, ?_⟩
  · intro t ht
    obtain ⟨h1, h2⟩ := hsock t ht
    cases hm : t.micOn <;> simp [forwardFrame, h1, h2, hm]
  · intro f hf
    rw [forwardedChunks, List.mem_filterMap] at hf
    obtain ⟨t, ht, hft⟩ := hf
    refine ⟨t, ht, ?_, ?_⟩
    · cases hm : t.micOn
      · rw [forwardFrame] at hft
        simp [hm] at hft
      · rfl
    · rw [forwardFrame] at hft
      cases hm : t.micOn <;> rw [hm] at hft <;> simp at hft
      cases hs : t.socketOpen <;> rw [hs] at hft <;> simp at hft
      cases hs2 : t.socketOpenAtSend <;> rw [hs2] at hft <;> simp at hft
      exact hft.symm
  · rw [forwardedChunks, List.filterMap_append]
    have hpost : post.filterMap forwardFrame = [] := by
      rw [List.filterMap_eq_nil_iff]
      intro t ht
      rw [forwardFrame]
      simp [hmuted t ht]
    rw [hpost, List.append_nil]
    rfl

/-- Witness for C5 on a concrete run: mic on, mic on, mic off. -/
theorem C5_mic_gating_witness :
    (∀ t ∈ [(⟨true, true, true, ⟨[1, 2]⟩⟩ : CaptureTick),
        ⟨false, true, true, ⟨[3]⟩⟩],
      (forwardFrame t = some t.frame ↔ t.micOn = true)
      ∧ (forwardFrame t = none ↔ t.micOn = false))
    ∧ (∀ f ∈ forwardedChunks [(⟨true, true, true, ⟨[1, 2]⟩⟩ : CaptureTick),
        ⟨false, true, true, ⟨[3]⟩⟩],
      ∃ t, t ∈ [(⟨true, true, true, ⟨[1, 2]⟩⟩ : CaptureTick),
          ⟨false, true, true, ⟨[3]⟩⟩] ∧ t.micOn = true ∧ f = t.frame)
    ∧ forwardedChunks ([(⟨true, true, true, ⟨[1, 2]⟩⟩ : CaptureTick)]
        ++ [(⟨false, false, true, ⟨[4]⟩⟩ : CaptureTick)])
      = forwardedChunks [(⟨true, true, true, ⟨[1, 2]⟩⟩ : CaptureTick)] :=
  C5_mic_gating
    [⟨true, true, true, ⟨[1, 2]⟩⟩, ⟨false, true, true, ⟨[3]⟩⟩]
    [⟨true, true, true, ⟨[1, 2]⟩⟩] [⟨false, false, true, ⟨[4]⟩⟩]
    (by decide) (by decide)

/-- C6 counterexample: from a fresh state, Pointing_Up fires Scroll Up at
time 1000; a Victory event at 1200 maps to a different action that has
never fired, yet the single shared cooldown timestamp suppresses it, so
the different mapped action does not fire inside the first action's
window. -/
theorem C6_counterexample :
    handleGesture
        (handleGesture (⟨0, true, false, false, []⟩ : GestureState)
          1000 "Pointing_Up") 1200 "Victory"
      = handleGesture (⟨0, true, false, false, []⟩ : GestureState)
          1000 "Pointing_Up"
    ∧ (handleGesture (⟨0, true, false, false, []⟩ : GestureState)
          1000 "Pointing_Up").fired = [("Scroll Up", 1000)] := by
  decide

/-- C6 amended: the gesture cooldown is one shared last-fired timestamp
for all mapped actions, not a per-action map: while now minus the stored
timestamp is below 500 every candidate event is suppressed whatever action
it maps to, and a firing branch overwrites the shared timestamp (now for
the scroll actions, now + 500 for dismiss, now + 2000 for the scan). -/
theorem C6_shared_cooldown (s : GestureState) (now t : ℤ) (g : String)
    (hsup : now - s.cooldown < 500) (hfire : 500 ≤ t - s.cooldown) :
    handleGesture s now g = s
    ∧ (s.hasTranscriptEl = true → (handleGesture s t "Pointing_Up").cooldown = t)
    ∧ (s.hasTranscriptEl = true → (handleGesture s t "Victory").cooldown = t)
    ∧ (s.holo = true → (handleGesture s t "Thumb_Down").cooldown = t + 500)
    ∧ (handleGesture s t "Closed_Fist").cooldown = t + 2000 := by
  have hn : ¬(t - s.cooldown < 500) := not_lt.mpr hfire
  refine ⟨?_, ?_, ?_, ?_, ?_⟩
  · rw [handleGesture, if_pos hsup]
  · intro hel
    rw [handleGesture, if_neg hn, if_pos rfl, if_pos hel]
  · intro hel
    rw [handleGesture, if_neg hn, if_neg (by decide), if_pos rfl, if_pos hel]
  · intro hh
    rw [handleGesture, if_neg hn, if_neg (by decide), if_neg (by decide),
      if_pos rfl, if_pos hh]
  · rw [handleGesture, if_neg hn, if_neg (by decide), if_neg (by decide),
      if_neg (by decide), if_pos rfl]

/-- Witness for C6: suppression at 300 after a fire at 0, updates at 600. -/
theorem C6_shared_cooldown_witness :
    handleGesture (⟨0, true, true, true, []⟩ : GestureState) 300 "Victory"
      = (⟨0, true, true, true, []⟩ : GestureState)
    ∧ ((⟨0, true, true, true, []⟩ : GestureState).hasTranscriptEl = true →
        (handleGesture (⟨0, true, true, true, []⟩ : GestureState)
          600 "Pointing_Up").cooldown = 600)
    ∧ ((⟨0, true, true, true, []⟩ : GestureState).hasTranscriptEl = true →
        (handleGesture (⟨0, true, true, true, []⟩ : GestureState)
          600 "Victory").cooldown = 600)
    ∧ ((⟨0, true, true, true, []⟩ : GestureState).holo = true →
        (handleGesture (⟨0, true, true, true, []⟩ : GestureState)
          600 "Thumb_Down").cooldown = 600 + 500)
    ∧ (handleGesture (⟨0, true, true, true, []⟩ : GestureState)
        600 "Closed_Fist").cooldown = 600 + 2000 :=
  C6_shared_cooldown ⟨0, true, true, true, []⟩ 300 600 "Victory"
    (by decide) (by decide)

/-- C7: two Closed_Fist classifications within the cooldown window fire
exactly one Scan Triggered action (the first fires and stores now + 2000,
a longer window than the 500 default, and the second is suppressed);
a classifier exception yields no gesture, and a null detection fires no
action in the polling loop. -/
theorem C7_double_fist (s : GestureState) (t0 t1 : ℤ)
    (h0 : 500 ≤ t0 - s.cooldown) (h1 : t1 - t0 < 500) :
    (handleGesture s t0 "Closed_Fist").fired
        = s.fired ++ [("Scan Triggered", t0)]
    ∧ (handleGesture s t0 "Closed_Fist").cooldown = t0 + 2000
    ∧ handleGesture (handleGesture s t0 "Closed_Fist") t1 "Closed_Fist"
        = handleGesture s t0 "Closed_Fist"
    ∧ (∀ now last : ℤ, last < now →
        detectGesture true now last (.error ()) = (none, now))
    ∧ (∀ (s2 : GestureState) (vOk : Bool) (now : ℤ),
        gestureLoopStep s2 vOk false now none = s2) := by
  have hn : ¬(t0 - s.cooldown < 500) := not_lt.mpr h0
  have hfist : handleGesture s t0 "Closed_Fist"
      = { s with fired := s.fired ++ [("Scan Triggered", t0)]
               , cooldown := t0 + 2000 } := by
    rw [handleGesture, if_neg hn, if_neg (by decide), if_neg (by decide),
      if_neg (by decide), if_pos rfl]
  refine ⟨?_, ?_, ?_, ?_, ?_⟩
  · rw [hfist]
  · rw [hfist]
  · rw [hfist]
    rw [handleGesture, if_pos (by dsimp only; omega)]
  · intro now last h
    rw [detectGesture]
    simp [h]
  · intro s2 vOk now
    cases vOk <;> rfl

/-- Witness for C7: fists at 600 and 900 from a fresh state. -/
theorem C7_double_fist_witness :
    (handleGesture (⟨0, true, false, false, []⟩ : GestureState)
        600 "Closed_Fist").fired
      = (⟨0, true, false, false, []⟩ : GestureState).fired
          ++ [("Scan Triggered", 600)]
    ∧ (handleGesture (⟨0, true, false, false, []⟩ : GestureState)
        600 "Closed_Fist").cooldown = 600 + 2000
    ∧ handleGesture (handleGesture (⟨0, true, false, false, []⟩ : GestureState)
        600 "Closed_Fist") 900 "Closed_Fist"
      = handleGesture (⟨0, true, false, false, []⟩ : GestureState)
          600 "Closed_Fist"
    ∧ (∀ now last : ℤ, last < now →
        detectGesture true now last (.error ()) = (none, now))
    ∧ (∀ (s2 : GestureState) (vOk : Bool) (now : ℤ),
        gestureLoopStep s2 vOk false now none = s2) :=
  C7_double_fist ⟨0, true, false, false, []⟩ 600 900 (by decide) (by decide)

/-- C8: a transport error while the socket is open reports the
reconnecting status, tears the session down and schedules a retry after
the fixed 2000 ms delay; the mic and camera flags survive both the error
and the re-entered connection establishment unchanged; a failure during
initial connection reports its message and schedules no retry. -/
theorem C8_reconnection (s s2 : SessionState) (msg : String)
    (hopen : s.isSocketOpen = true) (hidle : s2.reconnectDelayMs = none) :
    (onSessionError s).reconnectDelayMs = some 2000
    ∧ (onSessionError s).errorMsg = some "Network error. Reconnecting..."
    ∧ (onSessionError s).isMicOn = s.isMicOn
    ∧ (onSessionError s).isVideoOn = s.isVideoOn
    ∧ (onSessionError s).initDone = false
    ∧ (connectBegin (onSessionError s)).isMicOn = s.isMicOn
    ∧ (connectBegin (onSessionError s)).isVideoOn = s.isVideoOn
    ∧ (connectBegin (onSessionError s)).initDone = true
    ∧ (connectFail s2 msg).reconnectDelayMs = none
    ∧ (connectFail s2 msg).errorMsg = some msg := by
  have herr : onSessionError s
      = { cleanupFlags s with
            errorMsg := some "Network error. Reconnecting..."
          , reconnectDelayMs := some 2000 } := by
    rw [onSessionError, if_pos hopen]
  refine ⟨?_, ?_, ?_, ?_, ?_, ?_, ?_, ?_, ?_, ?_⟩ <;>
    simp [herr, cleanupFlags, connectBegin, connectFail, hidle]

/-- Witness for C8 at a concrete active session with mic off, camera on. -/
theorem C8_reconnection_witness :
    (onSessionError (⟨true, true, false, true, none, true, none⟩
        : SessionState)).reconnectDelayMs = some 2000
    ∧ (onSessionError (⟨true, true, false, true, none, true, none⟩
        : SessionState)).errorMsg = some "Network error. Reconnecting..."
    ∧ (onSessionError (⟨true, true, false, true, none, true, none⟩
        : SessionState)).isMicOn
      = (⟨true, true, false, true, none, true, none⟩ : SessionState).isMicOn
    ∧ (onSessionError (⟨true, true, false, true, none, true, none⟩
        : SessionState)).isVideoOn
      = (⟨true, true, false, true, none, true, none⟩ : SessionState).isVideoOn
    ∧ (onSessionError (⟨true, true, false, true, none, true, none⟩
        : SessionState)).initDone = false
    ∧ (connectBegin (onSessionError (⟨true, true, false, true, none, true,
        none⟩ : SessionState))).isMicOn
      = (⟨true, true, false, true, none, true, none⟩ : SessionState).isMicOn
    ∧ (connectBegin (onSessionError (⟨true, true, false, true, none, true,
        none⟩ : SessionState))).isVideoOn
      = (⟨true, true, false, true, none, true, none⟩ : SessionState).isVideoOn
    ∧ (connectBegin (onSessionError (⟨true, true, false, true, none, true,
        none⟩ : SessionState))).initDone = true
    ∧ (connectFail (⟨false, false, false, true, none, false, none⟩
        : SessionState) "Permission denied").reconnectDelayMs = none
    ∧ (connectFail (⟨false, false, false, true, none, false, none⟩
        : SessionState) "Permission denied").errorMsg
      = some "Permission denied" :=
  C8_reconnection ⟨true, true, false, true, none, true, none⟩
    ⟨false, false, false, true, none, false, none⟩ "Permission denied"
    rfl rfl

/-- C9 counterexample: deactivating a session with one source still in the
active playback set and the cursor at 5000 leaves both untouched: the
playback scheduler is not flushed by cleanupSession. -/
theorem C9_counterexample :
    (cleanupSession (⟨true, true, true, true, true, true, true, true, true,
        true, [1], 5000⟩ : ResourceState)).1.sources = [1]
    ∧ (cleanupSession (⟨true, true, true, true, true, true, true, true, true,
        true, [1], 5000⟩ : ResourceState)).1.nextStart = 5000 := by
  decide

/-- C9 amended: deactivation cancels the loops, drops the transport
reference, stops the capture devices and closes the audio contexts, in
that order, but performs no playback-scheduler flush (active set and
cursor survive); it is idempotent: a second call leaves the torn-down
state unchanged and performs only the unconditional loop cancellation. -/
theorem C9_teardown (s : ResourceState)
    (hsess : s.hasSession = true) (hstream : s.hasStream = true)
    (hctx : s.hasInputCtx = true) :
    (cleanupSession (cleanupSession s).1).1 = (cleanupSession s).1
    ∧ (cleanupSession s).2
        = [TeardownStep.cancelLoops, TeardownStep.dropTransport,
           TeardownStep.stopCapture, TeardownStep.closeAudioContexts]
    ∧ (cleanupSession s).1.sources = s.sources
    ∧ (cleanupSession s).1.nextStart = s.nextStart
    ∧ (cleanupSession s).1.hasSession = false
    ∧ (cleanupSession s).1.hasStream = false
    ∧ (cleanupSession s).1.isSocketOpen = false
    ∧ (cleanupSession s).1.hasInputCtx = false
    ∧ (cleanupSession s).1.hasOutputCtx = false
    ∧ (cleanupSession (cleanupSession s).1).2 = [TeardownStep.cancelLoops] := by
  refine ⟨rfl, ?_, rfl, rfl, rfl, rfl, rfl, rfl, rfl, rfl⟩
  simp [cleanupSession, hsess, hstream, hctx]

/-- Witness for C9 at a fully-resourced session state. -/
theorem C9_teardown_witness :
    (cleanupSession (cleanupSession (⟨true, true, true, true, true, true,
        true, true, true, true, [2], 40⟩ : ResourceState)).1).1
      = (cleanupSession (⟨true, true, true, true, true, true, true, true,
          true, true, [2], 40⟩ : ResourceState)).1
    ∧ (cleanupSession (⟨true, true, true, true, true, true, true, true,
        true, true, [2], 40⟩ : ResourceState)).2
      = [TeardownStep.cancelLoops, TeardownStep.dropTransport,
         TeardownStep.stopCapture, TeardownStep.closeAudioContexts]
    ∧ (cleanupSession (⟨true, true, true, true, true, true, true, true,
        true, true, [2], 40⟩ : ResourceState)).1.sources
      = (⟨true, true, true, true, true, true, true, true, true, true, [2],
          40⟩ : ResourceState).sources
    ∧ (cleanupSession (⟨true, true, true, true, true, true, true, true,
        true, true, [2], 40⟩ : ResourceState)).1.nextStart
      = (⟨true, true, true, true, true, true, true, true, true, true, [2],
          40⟩ : ResourceState).nextStart
    ∧ (cleanupSession (⟨true, true, true, true, true, true, true, true,
        true, true, [2], 40⟩ : ResourceState)).1.hasSession = false
    ∧ (cleanupSession (⟨true, true, true, true, true, true, true, true,
        true, true, [2], 40⟩ : ResourceState)).1.hasStream = false
    ∧ (cleanupSession (⟨true, true, true, true, true, true, true, true,
        true, true, [2], 40⟩ : ResourceState)).1.isSocketOpen = false
    ∧ (cleanupSession (⟨true, true, true, true, true, true, true, true,
        true, true, [2], 40⟩ : ResourceState)).1.hasInputCtx = false
    ∧ (cleanupSession (⟨true, true, true, true, true, true, true, true,
        true, true, [2], 40⟩ : ResourceState)).1.hasOutputCtx = false
    ∧ (cleanupSession (cleanupSession (⟨true, true, true, true, true, true,
        true, true, true, true, [2], 40⟩ : ResourceState)).1).2
      = [TeardownStep.cancelLoops] :=
  C9_teardown ⟨true, true, true, true, true, true, true, true, true, true,
    [2], 40⟩ rfl rfl rfl

/-- C10: performWebSearch always resolves to a text and source list: a
missing API key yields the fixed no-key text with no sources, a rejected
model call (or any other throw in the body) yields the fixed error text
with no sources, and a json block that fails to parse falls back to the
raw text with the block stripped. -/
theorem C10_search_total (h : HostEnv) (env : SearchEnv) (q : String) :
    (env.apiKey = "" →
      performWebSearch h env q
        = ⟨"I cannot search without an API key.", [], none⟩)
    ∧ (env.apiKey ≠ "" → env.genOutcome = .error () →
      performWebSearch h env q
        = ⟨"Sorry, I encountered an error while searching.", [], none⟩)
    ∧ (∀ resp block, env.apiKey ≠ "" → env.genOutcome = .ok resp →
        h.matchJsonBlock (resp.text.getD "") = some block →
        h.parseJson block = none →
        performWebSearch h env q
          = ⟨h.stripJsonBlock (resp.text.getD ""), [], none⟩)
    ∧ (searchBody h env = .error () →
      performWebSearch h env q
        = ⟨"Sorry, I encountered an error while searching.", [], none⟩) := by
  refine ⟨?_, ?_, ?_, ?_⟩
  · intro hk
    rw [performWebSearch, searchBody, if_pos hk]
  · intro hk hg
    rw [performWebSearch, searchBody, if_neg hk, hg]
  · intro resp block hk hg hb hp
    rw [performWebSearch, searchBody, if_neg hk, hg]
    dsimp only
    rw [hb]
    dsimp only
    rw [hp]
  · intro hbody
    rw [performWebSearch, hbody]

/-- Witness for C10: missing key, rejected model call, failed json parse,
each at a concrete environment. -/
theorem C10_search_total_witness :
    performWebSearch
        (⟨fun _ => some "x", fun _ => none, fun _ => "stripped",
          fun _ => some "h"⟩ : HostEnv)
        (⟨"", .error ()⟩ : SearchEnv) "q"
      = ⟨"I cannot search without an API key.", [], none⟩
    ∧ performWebSearch
        (⟨fun _ => some "x", fun _ => none, fun _ => "stripped",
          fun _ => some "h"⟩ : HostEnv)
        (⟨"k", .error ()⟩ : SearchEnv) "q"
      = ⟨"Sorry, I encountered an error while searching.", [], none⟩
    ∧ performWebSearch
        (⟨fun _ => some "x", fun _ => none, fun _ => "stripped",
          fun _ => some "h"⟩ : HostEnv)
        (⟨"k", .ok ⟨some "raw", []⟩⟩ : SearchEnv) "q"
      = ⟨"stripped", [], none⟩ :=
  ⟨(C10_search_total ⟨fun _ => some "x", fun _ => none, fun _ => "stripped",
      fun _ => some "h"⟩ ⟨"", .error ()⟩ "q").1 rfl,
   (C10_search_total ⟨fun _ => some "x", fun _ => none, fun _ => "stripped",
      fun _ => some "h"⟩ ⟨"k", .error ()⟩ "q").2.1 (by decide) rfl,
   (C10_search_total ⟨fun _ => some "x", fun _ => none, fun _ => "stripped",
      fun _ => some "h"⟩ ⟨"k", .ok ⟨some "raw", []⟩⟩ "q").2.2.1
     ⟨some "raw", []⟩ "x" (by decide) rfl rfl rfl⟩

end Companion
